import Mathlib

/-!
Verification of the connection-accepting server core of
`src/lib/cpp/src/server/TThreadedServer.cpp` (Apache Thrift,
`TThreadedServer`): the per-connection Worker Task (`Task::run`), the
Active-Worker Registry (`tasks_` / `tasksMonitor_`), and the Accept Loop
(`TThreadedServer::serve`).

The embedding is a shallow one: each external collaborator call (the
processor, the channel transports, the listening transport, the thread
factory, the monitor) is driven by an explicit oracle recording the
outcome of that call, and the C++ control flow — in particular the exact
`catch` clauses — is translated clause by clause into Lean functions over
those oracles.

Error taxonomy.  Following the file's own catch clauses (and the spec's
three-variant error model), a failing collaborator call raises one of:
* `ExcKind.transportExc t` — a C++ `TTransportException` carrying its
  `getType()` code `t` (`TTransportException` is a subclass of
  `TException`, so a `catch (TException&)` clause also catches it);
* `ExcKind.tExc` — a `TException` that is not a `TTransportException`;
* `ExcKind.stringExc` — a thrown `std::string`, the "unknown / opaque"
  variant (`serve` has a dedicated `catch (string s)` arm for it; it is
  not a `TException`, so `catch (TException&)` does not catch it, while
  a `catch (...)` arm does).
-/

namespace TThreadedServer

/-- The `TTransportException::TTransportExceptionType` enum of the
exception raised by transports; the server core only ever inspects
whether the type equals `INTERRUPTED` (line 199 of the source). -/
inductive TType where
  | unknownType
  | notOpen
  | alreadyOpen
  | timedOut
  | endOfFile
  | interrupted
  | badArgs
  | corruptedData
deriving DecidableEq, Repr

/-- Kind of a C++ exception raised by a collaborator call, as
distinguished by the catch clauses of `TThreadedServer.cpp`. -/
inductive ExcKind where
  | transportExc (t : TType)
  | tExc
  | stringExc
deriving DecidableEq, Repr

/-- The messages this file hands to `GlobalOutput`, one constructor per
`GlobalOutput` call site (the dynamic `what()` suffix is dropped). -/
inductive LogMsg where
  | clientDied        -- "TThreadedServer client died: ..."      (line 67)
  | taskTExc          -- "TThreadedServer exception: ..."        (line 70)
  | taskUncaught      -- "TThreadedServer uncaught exception."   (line 73)
  | inputCloseFailed  -- "TThreadedServer input close failed: "  (line 82)
  | outputCloseFailed -- "TThreadedServer output close failed: " (line 88)
  | listenFailed      -- "TThreadedServer::run() listen(): "     (line 146)
  | acceptDied        -- "TServerTransport died on accept: "     (line 200)
  | caughtTExc        -- "TThreadedServer: Caught TException: "  (line 208)
  | unknownExc        -- "TThreadedServer: Unknown exception: "  (line 215)
  | shutdownExc       -- "Exception shutting down: "             (line 226)
  | joinExc           -- "Exception joining workers: "           (line 235)
deriving DecidableEq, Repr

/-- Outcome of one `processor_->process(input_, output_)` call
(line 61): it returns a boolean or raises an exception. -/
inductive ProcResult where
  | ret (b : Bool)
  | err (e : ExcKind)
deriving DecidableEq, Repr

/-- Outcome of one `input_->getTransport()->peek()` call (line 62). -/
inductive PeekResult where
  | ret (b : Bool)
  | err (e : ExcKind)
deriving DecidableEq, Repr

/-- How the `while (processor_->process(...))` loop (lines 61-65) was
left.  `fuelOut` marks the artificial case in which the finite oracle
trace ended while the loop would have kept running; no theorem below
draws conclusions about cleanup from a `fuelOut` run. -/
inductive LoopExit where
  | procFalse        -- process returned false: clean end of stream
  | peekFalse        -- peek returned false: no pipelined follow-up
  | caught (e : ExcKind)  -- an exception left the loop (caught at lines 66-74)
  | fuelOut
deriving DecidableEq, Repr

/-- The processing loop of `Task::run` (lines 61-65):

    while (processor_->process(input_, output_)) {
      if (!input_->getTransport()->peek()) { break; }
    }

driven by the trace of (process result, peek result) pairs; the peek
component of a cycle is consulted only when that cycle's process call
returned `true`.  Returns the number of `process` invocations made and
the way the loop exited. -/
def procLoop : List (ProcResult × PeekResult) → Nat × LoopExit
  | [] => (0, .fuelOut)
  | (ProcResult.err e, _) :: _ => (1, .caught e)
  | (ProcResult.ret false, _) :: _ => (1, .procFalse)
  | (ProcResult.ret true, PeekResult.err e) :: _ => (1, .caught e)
  | (ProcResult.ret true, PeekResult.ret false) :: _ => (1, .peekFalse)
  | (ProcResult.ret true, PeekResult.ret true) :: rest =>
      ((procLoop rest).1 + 1, (procLoop rest).2)

/-- The message logged by the catch arms around the processing loop
(lines 66-74): `catch (TTransportException&)`, `catch (TException&)`,
`catch (...)` in that order. -/
def loopErrLog : ExcKind → LogMsg
  | .transportExc _ => .clientDied
  | .tExc => .taskTExc
  | .stringExc => .taskUncaught

/-- Result of one guarded channel close in `Task::run`
(`try { ...close(); } catch (TTransportException& ttx) { log }`,
lines 79-84 and 85-90). -/
inductive CloseOutcome where
  | closed                -- close returned normally
  | caughtFail            -- close threw a TTransportException: caught, logged
  | escape (e : ExcKind)  -- close threw something else: not caught, propagates
deriving DecidableEq, Repr

/-- `try { t->close(); } catch (TTransportException& ttx) { GlobalOutput }`:
only the transport kind is caught; any other kind escapes `run`. -/
def closeStep : Option ExcKind → CloseOutcome
  | none => .closed
  | some (.transportExc _) => .caughtFail
  | some e => .escape e

/-- `true` iff a close failing this way stays inside `run` (i.e. the
failure, if any, is of the kind the `catch (TTransportException&)`
clause catches). -/
def closeCatchable : Option ExcKind → Bool
  | none => true
  | some (.transportExc _) => true
  | some _ => false

/-- Oracle for one execution of `Task::run`: whether the server has an
event handler, what each collaborator call would do.  `hookBeginFail` /
`hookEndFail` are the exceptions `clientBegin` / `clientEnd` would raise
(both calls are outside every `try` block in the source), consulted only
when `hasHandler` is true. -/
structure TaskEnv where
  hasHandler : Bool
  hookBeginFail : Option ExcKind
  cycles : List (ProcResult × PeekResult)
  hookEndFail : Option ExcKind
  inputCloseFail : Option ExcKind
  outputCloseFail : Option ExcKind
deriving DecidableEq, Repr

/-- Observable trace of one `Task::run` execution.  `deregistered` marks
that the `Synchronized` block of lines 92-99 (`tasks_.erase(this)` plus
the conditional `notify`) executed; `escaped` is the exception, if any,
that propagated out of `run()` (in which case every later step was
skipped). -/
structure RunResult where
  clientBeginFired : Bool
  procCalls : Nat
  loopExit : Option LoopExit   -- `none` when the loop was never entered
  clientEndFired : Bool
  inputCloseTried : Bool
  inputClosed : Bool
  outputCloseTried : Bool
  outputClosed : Bool
  deregistered : Bool
  logs : List LogMsg
  escaped : Option ExcKind
deriving DecidableEq, Repr

/-- Shallow embedding of `TThreadedServer::Task::run` (lines 54-101),
step by step:
1. `clientBegin` if a handler is set (lines 55-59; unguarded, so a
   failure there escapes immediately);
2. the processing loop with its three catch arms (lines 60-74);
3. `clientEnd` if a handler is set (lines 75-77; unguarded);
4. guarded input close (lines 79-84, catches transport kind only);
5. guarded output close (lines 85-90, catches transport kind only);
6. the registry erase block (lines 92-99). -/
def runTask (env : TaskEnv) : RunResult :=
  match env.hasHandler, env.hookBeginFail with
  | true, some e =>
      { clientBeginFired := true, procCalls := 0, loopExit := none,
        clientEndFired := false, inputCloseTried := false, inputClosed := false,
        outputCloseTried := false, outputClosed := false,
        deregistered := false, logs := [], escaped := some e }
  | _, _ =>
    let n := (procLoop env.cycles).1
    match (procLoop env.cycles).2 with
    | LoopExit.fuelOut =>
        { clientBeginFired := env.hasHandler, procCalls := n,
          loopExit := some .fuelOut,
          clientEndFired := false, inputCloseTried := false, inputClosed := false,
          outputCloseTried := false, outputClosed := false,
          deregistered := false, logs := [], escaped := none }
    | ex =>
      let logs0 : List LogMsg :=
        match ex with
        | LoopExit.caught e => [loopErrLog e]
        | _ => []
      match env.hasHandler, env.hookEndFail with
      | true, some e =>
          { clientBeginFired := true, procCalls := n, loopExit := some ex,
            clientEndFired := true, inputCloseTried := false, inputClosed := false,
            outputCloseTried := false, outputClosed := false,
            deregistered := false, logs := logs0, escaped := some e }
      | _, _ =>
        match closeStep env.inputCloseFail with
        | CloseOutcome.escape e =>
            { clientBeginFired := env.hasHandler, procCalls := n, loopExit := some ex,
              clientEndFired := env.hasHandler, inputCloseTried := true, inputClosed := false,
              outputCloseTried := false, outputClosed := false,
              deregistered := false, logs := logs0, escaped := some e }
        | inRes =>
          let logs1 := logs0 ++
            (match inRes with
             | CloseOutcome.caughtFail => [LogMsg.inputCloseFailed]
             | _ => [])
          match closeStep env.outputCloseFail with
          | CloseOutcome.escape e =>
              { clientBeginFired := env.hasHandler, procCalls := n, loopExit := some ex,
                clientEndFired := env.hasHandler, inputCloseTried := true,
                inputClosed := inRes = CloseOutcome.closed,
                outputCloseTried := true, outputClosed := false,
                deregistered := false, logs := logs1, escaped := some e }
          | outRes =>
            let logs2 := logs1 ++
              (match outRes with
               | CloseOutcome.caughtFail => [LogMsg.outputCloseFailed]
               | _ => [])
            { clientBeginFired := env.hasHandler, procCalls := n, loopExit := some ex,
              clientEndFired := env.hasHandler, inputCloseTried := true,
              inputClosed := inRes = CloseOutcome.closed,
              outputCloseTried := true,
              outputClosed := outRes = CloseOutcome.closed,
              deregistered := true, logs := logs2, escaped := none }

/-- The registry block of `Task::run` (lines 93-99):

    Synchronized s(server_.tasksMonitor_);
    server_.tasks_.erase(this);
    if (server_.tasks_.empty()) { server_.tasksMonitor_.notify(); }

Returns the registry after the erase and whether `notify` fired. -/
def deregisterStep (reg : Finset Nat) (id : Nat) : Finset Nat × Bool :=
  let reg' := reg.erase id
  (reg', decide (reg' = ∅))

/-! ## The Accept Loop: `TThreadedServer::serve` (lines 134-241) -/

/-- Which of the per-iteration resources (`client`, `inputTransport`,
`outputTransport`) had already been created when an exception hit an
accept-loop iteration; the catch arms close exactly the non-NULL ones
(lines 196-198, 205-207, 212-214). -/
structure Resources where
  clientMade : Bool
  inMade : Bool
  outMade : Bool
deriving DecidableEq, Repr

/-- Oracle outcome of one iteration body of the accept loop
(lines 157-194): either every step up to `thread->start()` succeeded,
or an exception was raised before the `tasks_.insert(task)` of
line 189 (accept / factory wrapping), or `thread->start()` (line 193)
raised after the insert — in which case all five resources exist. -/
inductive IterOutcome where
  | ok (id : Nat)
  | failBefore (made : Resources) (e : ExcKind)
  | failAfter (id : Nat) (e : ExcKind)
deriving DecidableEq, Repr

/-- Oracle for one accept-loop iteration.  The `stop_` flag is written
by `stop()` on another thread, so its value is sampled afresh at each
read: `stopAtCond` is the value the `while (!stop_)` condition
(line 156) reads before this iteration, `stopAtCatch` the value line 199
reads inside the `catch (TTransportException&)` arm, and `stopAtBreak`
the value line 222 reads when this iteration `break`s out.  (In a real
execution these samples are monotone — the flag only goes from false to
true while the loop runs; the theorems below hold for every sampling.) -/
structure IterEnv where
  stopAtCond : Bool
  outcome : IterOutcome
  stopAtCatch : Bool
  stopAtBreak : Bool
deriving DecidableEq, Repr

/-- What one catch arm of the accept loop does (lines 195-218): which
resources it closes, what it logs, and whether it `break`s (only the
`catch (string)` arm breaks; the other two `continue`). -/
structure CatchResult where
  closedClient : Bool
  closedIn : Bool
  closedOut : Bool
  log : Option LogMsg
  breaks : Bool
deriving DecidableEq, Repr

/-- The three catch arms of the accept loop, lines 195-218.  Each closes
the already-created resources; then:
* `catch (TTransportException& ttx)` logs only when
  `!stop_ || ttx.getType() != TTransportException::INTERRUPTED`
  (line 199) and continues;
* `catch (TException& tx)` logs and continues;
* `catch (string s)` logs and breaks. -/
def acceptLoopCatch (stopNow : Bool) (made : Resources) (e : ExcKind) : CatchResult :=
  { closedClient := made.clientMade
    closedIn := made.inMade
    closedOut := made.outMade
    log :=
      match e with
      | .transportExc t =>
          if stopNow = false ∨ t ≠ TType.interrupted then some LogMsg.acceptDied else none
      | .tExc => some LogMsg.caughtTExc
      | .stringExc => some LogMsg.unknownExc
    breaks := match e with | .stringExc => true | _ => false }

/-- Mutable state the accept loop threads through its iterations: the
Active-Worker Registry `tasks_` (as the set of task identities) and the
log trace.  `serve` itself never erases a registry entry; only a task's
own `run` does. -/
structure LoopState where
  registry : Finset Nat
  logs : List LogMsg
deriving DecidableEq

/-- How the `while (!stop_)` loop was left: the condition read `stop_`
as true, or the `catch (string)` arm broke out (`stopAfter` is the value
line 222 then reads), or the finite oracle ran out (`fuelOut`; the loop
would have kept running — no shutdown conclusions are drawn there). -/
inductive LoopEnd where
  | sawStop
  | broke (stopAfter : Bool)
  | fuelOut
deriving DecidableEq, Repr

/-- The accept loop (lines 156-219) over the iteration oracle:
check `stop_`; run the iteration body; on success insert the new task id
(line 189) and start its thread; on failure run the matching catch arm,
then continue or break as that arm dictates.  A `failAfter` iteration
had already inserted its task id, and no catch arm removes it. -/
def serveLoop : LoopState → List IterEnv → LoopState × LoopEnd
  | s, [] => (s, .fuelOut)
  | s, it :: rest =>
    if it.stopAtCond then (s, .sawStop)
    else
      match it.outcome with
      | .ok id => serveLoop ⟨insert id s.registry, s.logs⟩ rest
      | .failBefore made e =>
          let c := acceptLoopCatch it.stopAtCatch made e
          let s' : LoopState := ⟨s.registry, s.logs ++ c.log.toList⟩
          if c.breaks then (s', .broke it.stopAtBreak) else serveLoop s' rest
      | .failAfter id e =>
          let c := acceptLoopCatch it.stopAtCatch ⟨true, true, true⟩ e
          let s' : LoopState := ⟨insert id s.registry, s.logs ++ c.log.toList⟩
          if c.breaks then (s', .broke it.stopAtBreak) else serveLoop s' rest

/-- Oracle for one `serve()` call: whether `listen()` (line 144) fails
and how, the event-handler presence, the iteration trace, and how the
shutdown block's two guarded calls (`serverTransport_->close()` at
line 224 and the `tasksMonitor_.wait()` drain at lines 230-233) would
fail, if at all. -/
structure ServeEnv where
  listenFail : Option ExcKind
  hasHandler : Bool
  iters : List IterEnv
  closeListenerFail : Option ExcKind
  waitFail : Option ExcKind
deriving DecidableEq, Repr

/-- Observable trace of one `serve()` call.  `didResetStop` marks that
the `stop_ = false` assignment of line 238 executed; `drainTried` /
`drainCompleted` mark that the `try { ... wait ... }` block of
lines 229-237 was entered / that its wait loop ran until `tasks_` was
observed empty; `escaped` is an exception that propagated out of
`serve()` (skipping everything after it). -/
structure ServeResult where
  preServeFired : Bool
  registry : Finset Nat
  logs : List LogMsg
  loopEnd : Option LoopEnd   -- `none` when the loop was never entered
  shutdownRan : Bool
  closeListenerTried : Bool
  drainTried : Bool
  drainCompleted : Bool
  didResetStop : Bool
  escaped : Option ExcKind
deriving DecidableEq

/-- The `if (stop_) { ... }` shutdown block of lines 221-239, entered
with `stop_` true: close the listening transport under
`catch (TException&)` (so a thrown string escapes `serve`), drain the
registry under `catch (TException&)` (likewise), then reset `stop_`.
A completed drain leaves the registry empty — the wait loop of
lines 231-233 only exits when `tasks_.empty()`; a failed (caught) drain
leaves whatever entries remained.  `s` is the loop state at exit and
`le` how the loop ended. -/
def shutdownBlock (env : ServeEnv) (s : LoopState) (le : LoopEnd) : ServeResult :=
  match env.closeListenerFail with
  | some ExcKind.stringExc =>
      { preServeFired := env.hasHandler, registry := s.registry, logs := s.logs,
        loopEnd := some le, shutdownRan := true, closeListenerTried := true,
        drainTried := false, drainCompleted := false, didResetStop := false,
        escaped := some ExcKind.stringExc }
  | cl =>
    let logs1 := s.logs ++ (match cl with | none => [] | some _ => [LogMsg.shutdownExc])
    match env.waitFail with
    | some ExcKind.stringExc =>
        { preServeFired := env.hasHandler, registry := s.registry, logs := logs1,
          loopEnd := some le, shutdownRan := true, closeListenerTried := true,
          drainTried := true, drainCompleted := false, didResetStop := false,
          escaped := some ExcKind.stringExc }
    | wf =>
        { preServeFired := env.hasHandler,
          registry := match wf with | none => ∅ | some _ => s.registry,
          logs := logs1 ++ (match wf with | none => [] | some _ => [LogMsg.joinExc]),
          loopEnd := some le, shutdownRan := true, closeListenerTried := true,
          drainTried := true, drainCompleted := wf.isNone, didResetStop := true,
          escaped := none }

/-- Return from `serve` when the exit check `if (stop_)` (line 222) read
false: no listener close, no drain, no flag reset. -/
def skipShutdown (env : ServeEnv) (s : LoopState) (le : LoopEnd) : ServeResult :=
  { preServeFired := env.hasHandler, registry := s.registry, logs := s.logs,
    loopEnd := some le, shutdownRan := false, closeListenerTried := false,
    drainTried := false, drainCompleted := false, didResetStop := false,
    escaped := none }

/-- Shallow embedding of `TThreadedServer::serve` (lines 134-241):
1. `listen()` under `catch (TTransportException&)` — a transport failure
   is logged and `serve` returns; any other kind escapes (lines 142-149);
2. the `preServe` hook (lines 151-154);
3. the accept loop (`serveLoop`);
4. the shutdown block, run exactly when line 222 reads `stop_` as true:
   after a `sawStop` exit that read is the same true value the loop
   condition just read; after a `broke` exit it is the iteration's
   `stopAtBreak` sample. -/
def serve (env : ServeEnv) : ServeResult :=
  match env.listenFail with
  | some (ExcKind.transportExc _) =>
      { preServeFired := false, registry := ∅, logs := [LogMsg.listenFailed],
        loopEnd := none, shutdownRan := false, closeListenerTried := false,
        drainTried := false, drainCompleted := false, didResetStop := false,
        escaped := none }
  | some e =>
      { preServeFired := false, registry := ∅, logs := [],
        loopEnd := none, shutdownRan := false, closeListenerTried := false,
        drainTried := false, drainCompleted := false, didResetStop := false,
        escaped := some e }
  | none =>
    match serveLoop ⟨∅, []⟩ env.iters with
    | (s, LoopEnd.sawStop) => shutdownBlock env s .sawStop
    | (s, LoopEnd.broke b) =>
        if b then shutdownBlock env s (.broke b) else skipShutdown env s (.broke b)
    | (s, LoopEnd.fuelOut) => skipShutdown env s .fuelOut

/-! ## Registry lifecycle protocol

A small transition system for the concurrent lifecycle of task
identities against the shared `tasks_` set, with one transition per
registry-relevant program point of the source:
* `register`: the `Synchronized { tasks_.insert(task) }` block of
  lines 187-190, executed by the accept loop strictly before
  `thread->start()` (line 193);
* `launch`: `thread->start()` succeeding — the task's `run` is now an
  independent execution;
* `launchFail`: `thread->start()` throwing — the catch arms of
  lines 195-218 close resources but never touch `tasks_`;
* `finish`: the task's own `tasks_.erase(this)` block (lines 92-99),
  reached when `run` terminates normally;
* `escapeRun`: `run` terminating instead with an escaping exception — a
  `clientEnd` failure (lines 75-77 are unguarded) or a non-transport
  close failure (lines 81/87 catch only `TTransportException`); this is
  the `runTask` path with `escaped = some e` and `deregistered = false`:
  the erase block never executes and `tasks_` is untouched.

Steps of distinct task identities interleave freely; each identity
advances through its phases at most once. -/

/-- Lifecycle phase of one task identity. -/
inductive Phase where
  | created      -- Task object built (line 173), not yet inserted
  | registered   -- inserted into tasks_ (line 189), thread not started
  | launched     -- thread->start() succeeded (line 193), run in progress
  | launchFailed -- thread->start() threw; no run will ever execute
  | finished     -- run terminated normally through its erase block (line 95)
  | leaked       -- run terminated via an escaping exception; erase skipped
deriving DecidableEq, Repr

/-- Pointwise update of a phase assignment. -/
def updPhase (f : Nat → Phase) (id : Nat) (p : Phase) : Nat → Phase :=
  fun j => if j = id then p else f j

/-- Global state: the shared registry `tasks_` plus each identity's
lifecycle phase. -/
structure RegSys where
  reg : Finset Nat
  phase : Nat → Phase

/-- Initial state: empty registry, every identity still unbuilt. -/
def RegSys.init : RegSys := ⟨∅, fun _ => Phase.created⟩

/-- One interleaved step of the accept loop or of some task's `run`,
with the registry effect each program point has in the source.  A run
can terminate two ways: `finish` (the erase block of lines 92-99 runs)
or `escapeRun` (an exception escapes `run()` before the erase — the
path `runTask` exhibits — leaving `tasks_` untouched). -/
inductive RegStep : RegSys → RegSys → Prop
  | register (s : RegSys) (id : Nat) :
      s.phase id = Phase.created →
      RegStep s ⟨insert id s.reg, updPhase s.phase id Phase.registered⟩
  | launch (s : RegSys) (id : Nat) :
      s.phase id = Phase.registered →
      RegStep s ⟨s.reg, updPhase s.phase id Phase.launched⟩
  | launchFail (s : RegSys) (id : Nat) :
      s.phase id = Phase.registered →
      RegStep s ⟨s.reg, updPhase s.phase id Phase.launchFailed⟩
  | finish (s : RegSys) (id : Nat) :
      s.phase id = Phase.launched →
      RegStep s ⟨s.reg.erase id, updPhase s.phase id Phase.finished⟩
  | escapeRun (s : RegSys) (id : Nat) :
      s.phase id = Phase.launched →
      RegStep s ⟨s.reg, updPhase s.phase id Phase.leaked⟩

/-- States reachable from the initial state by interleaved steps. -/
inductive RegReachable : RegSys → Prop
  | init : RegReachable RegSys.init
  | step {s s' : RegSys} : RegReachable s → RegStep s s' → RegReachable s'

/-- The registry invariant: an identity is in `tasks_` exactly while it
is registered, launched (still running), or leaked — by a failed launch
or by a run that terminated with an escaping exception. -/
def RegInv (s : RegSys) : Prop :=
  ∀ id, id ∈ s.reg ↔
    (s.phase id = Phase.registered ∨ s.phase id = Phase.launched ∨
     s.phase id = Phase.launchFailed ∨ s.phase id = Phase.leaked)

/-- Demonstration state: identity `0` registered by the accept loop. -/
def regDemo1 : RegSys :=
  ⟨insert 0 RegSys.init.reg, updPhase RegSys.init.phase 0 Phase.registered⟩

/-- Demonstration state: identity `0` registered, then launched. -/
def regDemo2 : RegSys := ⟨regDemo1.reg, updPhase regDemo1.phase 0 Phase.launched⟩

/-- Demonstration state: identity `0` registered, launched, and its run
then terminated by an escaping exception — run over, entry retained. -/
def regDemoLeaked : RegSys :=
  ⟨regDemo2.reg, updPhase regDemo2.phase 0 Phase.leaked⟩

/-- A handler-less connection with one clean request cycle whose input
close raises a thrown string: `run` gets past `clientEnd`, attempts the
input close, and the string — uncaught by `catch (TTransportException&)`
— escapes `run()` before the erase block. -/
def demoEnvC2 : TaskEnv :=
  { hasHandler := false, hookBeginFail := none,
    cycles := [(ProcResult.ret false, PeekResult.ret true)],
    hookEndFail := none,
    inputCloseFail := some ExcKind.stringExc, outputCloseFail := none }

/-- A connection whose single request cycle succeeds and reports no
further request, whose `clientEnd` hook raises a generic `TException`,
and whose closes would succeed. -/
def demoEnvC1 : TaskEnv :=
  { hasHandler := true, hookBeginFail := none,
    cycles := [(ProcResult.ret false, PeekResult.ret true)],
    hookEndFail := some ExcKind.tExc,
    inputCloseFail := none, outputCloseFail := none }

/-- Cycle trace: first cycle continues with data pending, second cycle
reports no further request. -/
def demoCyclesC4 : List (ProcResult × PeekResult) :=
  [(ProcResult.ret true, PeekResult.ret true),
   (ProcResult.ret false, PeekResult.ret true)]

/-- A handler-less connection whose processor reports no further request
on its first call and whose cleanup succeeds. -/
def demoEnvC4 : TaskEnv :=
  { hasHandler := false, hookBeginFail := none,
    cycles := [(ProcResult.ret false, PeekResult.ret true)],
    hookEndFail := none, inputCloseFail := none, outputCloseFail := none }

/-- A connection whose processor raises a generic `TException` on its
first call, with a handler set and clean cleanup. -/
def demoEnvC6 : TaskEnv :=
  { hasHandler := true, hookBeginFail := none,
    cycles := [(ProcResult.err ExcKind.tExc, PeekResult.ret true)],
    hookEndFail := none, inputCloseFail := none, outputCloseFail := none }

/-- A connection whose input close raises a generic `TException` — a
kind the `catch (TTransportException&)` clause of line 81 does not
catch. -/
def demoEnvC7 : TaskEnv :=
  { hasHandler := false, hookBeginFail := none,
    cycles := [(ProcResult.ret false, PeekResult.ret true)],
    hookEndFail := none,
    inputCloseFail := some ExcKind.tExc, outputCloseFail := none }

/-- A connection whose both closes raise transport exceptions — the kind
the close catch clauses do catch. -/
def demoEnvC7w : TaskEnv :=
  { hasHandler := false, hookBeginFail := none,
    cycles := [(ProcResult.ret false, PeekResult.ret true)],
    hookEndFail := none,
    inputCloseFail := some (ExcKind.transportExc TType.notOpen),
    outputCloseFail := some (ExcKind.transportExc TType.notOpen) }

/-- A serve run whose single iteration throws a string (the opaque arm)
while a concurrent `stop()` has set the flag by the time line 222 reads
it (`stopAtBreak = true`); the shutdown calls themselves succeed. -/
def demoServeC5 : ServeEnv :=
  { listenFail := none, hasHandler := false,
    iters := [⟨false, IterOutcome.failBefore ⟨true, false, false⟩ ExcKind.stringExc,
               false, true⟩],
    closeListenerFail := none, waitFail := none }

/-- A serve run whose single iteration throws a string with the stop
flag still unset at the exit check (`stopAtBreak = false`). -/
def demoServeC5b : ServeEnv :=
  { listenFail := none, hasHandler := false,
    iters := [⟨false, IterOutcome.failBefore ⟨true, false, false⟩ ExcKind.stringExc,
               false, false⟩],
    closeListenerFail := none, waitFail := none }

/-- A serve run stopped at the first loop-condition check, whose
listening-transport close throws a string — a kind the
`catch (TException&)` of line 225 does not catch. -/
def demoServeC8 : ServeEnv :=
  { listenFail := none, hasHandler := false,
    iters := [⟨true, IterOutcome.ok 0, false, false⟩],
    closeListenerFail := some ExcKind.stringExc, waitFail := none }

/-- A serve run stopped at the first loop-condition check, whose
listening-transport close fails with a transport exception (caught) and
whose drain succeeds. -/
def demoServeC8w : ServeEnv :=
  { listenFail := none, hasHandler := false,
    iters := [⟨true, IterOutcome.ok 0, false, false⟩],
    closeListenerFail := some (ExcKind.transportExc TType.notOpen),
    waitFail := none }

/-- An iteration on which `thread->start()` throws a transport
INTERRUPTED exception after the insert, with the stop flag read true
inside the catch: line 199's condition is false, so nothing is logged. -/
def demoIterC10 : IterEnv :=
  ⟨false, IterOutcome.failAfter 7 (ExcKind.transportExc TType.interrupted),
   true, false⟩

/-- An iteration on which `thread->start()` throws a generic
`TException` after the insert. -/
def demoIterC10w : IterEnv :=
  ⟨false, IterOutcome.failAfter 7 ExcKind.tExc, false, false⟩

/-! ## Theorems -/

lemma regInv_init : RegInv RegSys.init := by
  intro id
  simp [RegSys.init, RegInv]

lemma regInv_step {s s' : RegSys} (h : RegStep s s') (hinv : RegInv s) : RegInv s' := by
  cases h with
  | register id hph =>
      intro j
      by_cases hj : j = id
      · subst hj
        simp [updPhase, Finset.mem_insert]
      · simpa [updPhase, Finset.mem_insert, hj] using hinv j
  | launch id hph =>
      intro j
      by_cases hj : j = id
      · subst hj
        have hm : j ∈ s.reg := (hinv j).2 (Or.inl hph)
        simp [updPhase, hm]
      · simpa [updPhase, hj] using hinv j
  | launchFail id hph =>
      intro j
      by_cases hj : j = id
      · subst hj
        have hm : j ∈ s.reg := (hinv j).2 (Or.inl hph)
        simp [updPhase, hm]
      · simpa [updPhase, hj] using hinv j
  | finish id hph =>
      intro j
      by_cases hj : j = id
      · subst hj
        simp [updPhase, Finset.mem_erase]
      · simpa [updPhase, Finset.mem_erase, hj] using hinv j
  | escapeRun id hph =>
      intro j
      by_cases hj : j = id
      · subst hj
        have hm : j ∈ s.reg := (hinv j).2 (Or.inr (Or.inl hph))
        simp [updPhase, hm]
      · simpa [updPhase, hj] using hinv j

lemma regReachable_inv {s : RegSys} (h : RegReachable s) : RegInv s := by
  induction h with
  | init => exact regInv_init
  | step _ hstep ih => exact regInv_step hstep ih

/-- Claim C2 (counterexample): a reachable state in which identity `0`'s
run has completed — terminated by an exception escaping `run()` — yet
`0` is still in the registry, refuting "no task remains in the registry
after its run has completed".  The escaping termination is the program's
own behaviour, exhibited by `runTask` at `demoEnvC2`: the input close
throws a string, `catch (TTransportException&)` (line 81) does not catch
it, and the erase block (lines 92-99) never executes. -/
theorem c2_counterexample :
    RegReachable regDemoLeaked ∧
    regDemoLeaked.phase 0 = Phase.leaked ∧
    0 ∈ regDemoLeaked.reg ∧
    (runTask demoEnvC2).escaped = some ExcKind.stringExc ∧
    (runTask demoEnvC2).deregistered = false := by
  refine ⟨?_, rfl, ?_, ?_, ?_⟩
  · exact RegReachable.step
      (RegReachable.step
        (RegReachable.step RegReachable.init (RegStep.register RegSys.init 0 rfl))
        (RegStep.launch regDemo1 0 rfl))
      (RegStep.escapeRun regDemo2 0 rfl)
  · decide
  · decide
  · decide

/-- Claim C2 (amended): in every reachable state, a task identity is in
the Active-Worker Registry from its insertion by the accept loop
(strictly before the thread start, enforced by the phase order
`created → registered → launched`) for as long as it is registered or
launched (still running) — never yet-unregistered or erased; a run that
terminates normally removes the identity through its own erase block,
but a run that terminates via an exception escaping `run()` — like a
launch that throws after the insert — leaves the identity in the
registry permanently: removal happens only through the erase at the end
of a normally-completing run. -/
theorem c2_registry_interval_amended {s : RegSys} (h : RegReachable s) (id : Nat) :
    (s.phase id = Phase.registered → id ∈ s.reg) ∧
    (s.phase id = Phase.launched → id ∈ s.reg) ∧
    (s.phase id = Phase.finished → id ∉ s.reg) ∧
    (s.phase id = Phase.created → id ∉ s.reg) ∧
    (s.phase id = Phase.leaked → id ∈ s.reg) ∧
    (s.phase id = Phase.launchFailed → id ∈ s.reg) := by
  have hinv := regReachable_inv h
  refine ⟨fun hp => (hinv id).2 (Or.inl hp),
          fun hp => (hinv id).2 (Or.inr (Or.inl hp)), ?_, ?_,
          fun hp => (hinv id).2 (Or.inr (Or.inr (Or.inr hp))),
          fun hp => (hinv id).2 (Or.inr (Or.inr (Or.inl hp)))⟩
  · intro hp hmem
    rcases (hinv id).1 hmem with h1 | h1 | h1 | h1 <;> rw [hp] at h1 <;>
      exact Phase.noConfusion h1
  · intro hp hmem
    rcases (hinv id).1 hmem with h1 | h1 | h1 | h1 <;> rw [hp] at h1 <;>
      exact Phase.noConfusion h1

theorem c2_registry_interval_amended_witness :
    (0 : Nat) ∈ regDemo2.reg ∧ (0 : Nat) ∈ regDemoLeaked.reg :=
  ⟨(c2_registry_interval_amended
     (RegReachable.step
       (RegReachable.step RegReachable.init (RegStep.register RegSys.init 0 rfl))
       (RegStep.launch regDemo1 0 rfl))
     0).2.1 rfl,
   (c2_registry_interval_amended
     (RegReachable.step
       (RegReachable.step
         (RegReachable.step RegReachable.init (RegStep.register RegSys.init 0 rfl))
         (RegStep.launch regDemo1 0 rfl))
       (RegStep.escapeRun regDemo2 0 rfl))
     0).2.2.2.2.1 rfl⟩

/-- Claim C9: in the deregistration block (lines 93-99) the monitor is
notified if and only if the erase makes `tasks_` empty; a removal that
leaves another identity behind does not notify. -/
theorem c9_notify_iff_empty (reg : Finset Nat) (id : Nat) :
    ((deregisterStep reg id).2 = true ↔ (deregisterStep reg id).1 = ∅) ∧
    (∀ j, j ∈ reg → j ≠ id → (deregisterStep reg id).2 = false) := by
  constructor
  · simp [deregisterStep]
  · intro j hj hne
    have hmem : j ∈ reg.erase id := Finset.mem_erase.2 ⟨hne, hj⟩
    have hne' : reg.erase id ≠ ∅ := Finset.ne_empty_of_mem hmem
    simp [deregisterStep, hne']

theorem c9_notify_iff_empty_witness :
    (deregisterStep ({1, 2} : Finset Nat) 1).2 = false :=
  (c9_notify_iff_empty ({1, 2} : Finset Nat) 1).2 2 (by decide) (by decide)

lemma procLoop_cons_pos (c : ProcResult × PeekResult)
    (cs : List (ProcResult × PeekResult)) : 0 < (procLoop (c :: cs)).1 := by
  rcases c with ⟨p, k⟩
  cases p with
  | err e => simp [procLoop]
  | ret b =>
    cases b
    · simp [procLoop]
    · cases k with
      | err e => simp [procLoop]
      | ret b2 => cases b2 <;> simp [procLoop]

lemma procLoop_reinvoke (cs : List (ProcResult × PeekResult)) :
    ∀ i, i < (procLoop cs).1 →
      ((i + 1 < (procLoop cs).1) ↔
        (cs.get? i = some (ProcResult.ret true, PeekResult.ret true) ∧
         i + 1 < cs.length)) := by
  induction cs with
  | nil =>
    intro i hi
    simp [procLoop] at hi
  | cons c rest ih =>
    rcases c with ⟨p, k⟩
    intro i hi
    cases p with
    | err e =>
      simp only [procLoop] at hi
      have h0 : i = 0 := Nat.lt_one_iff.mp hi
      subst h0
      simp [procLoop]
    | ret b =>
      cases b with
      | false =>
        simp only [procLoop] at hi
        have h0 : i = 0 := Nat.lt_one_iff.mp hi
        subst h0
        simp [procLoop]
      | true =>
        cases k with
        | err e =>
          simp only [procLoop] at hi
          have h0 : i = 0 := Nat.lt_one_iff.mp hi
          subst h0
          simp [procLoop]
        | ret b2 =>
          cases b2 with
          | false =>
            simp only [procLoop] at hi
            have h0 : i = 0 := Nat.lt_one_iff.mp hi
            subst h0
            simp [procLoop]
          | true =>
            simp only [procLoop] at hi
            cases i with
            | zero =>
              cases rest with
              | nil => simp [procLoop]
              | cons r rs =>
                have h1 : 0 < (procLoop (r :: rs)).1 := procLoop_cons_pos r rs
                simp [procLoop, Nat.succ_lt_succ_iff, h1]
            | succ i' =>
              have hi' : i' < (procLoop rest).1 := Nat.lt_of_succ_lt_succ hi
              simpa [procLoop, Nat.succ_lt_succ_iff] using ih i' hi'

lemma closeCatchable_elim {o : Option ExcKind} (h : closeCatchable o = true) :
    o = none ∨ ∃ t, o = some (ExcKind.transportExc t) := by
  rcases o with _ | e
  · exact Or.inl rfl
  · cases e with
    | transportExc t => exact Or.inr ⟨t, rfl⟩
    | tExc => simp [closeCatchable] at h
    | stringExc => simp [closeCatchable] at h

/-- When the begin/end hooks do not fail, the close failures (if any)
are of the caught transport kind, and the loop exits for a real reason,
`Task::run` runs to the end: both closes are attempted, close failures
are logged, the task deregisters, and nothing escapes. -/
lemma runTask_cleanup (env : TaskEnv)
    (hb : env.hookBeginFail = none) (he : env.hookEndFail = none)
    (hic : closeCatchable env.inputCloseFail = true)
    (hoc : closeCatchable env.outputCloseFail = true)
    (hfuel : (procLoop env.cycles).2 ≠ LoopExit.fuelOut) :
    runTask env =
      { clientBeginFired := env.hasHandler,
        procCalls := (procLoop env.cycles).1,
        loopExit := some (procLoop env.cycles).2,
        clientEndFired := env.hasHandler,
        inputCloseTried := true,
        inputClosed := env.inputCloseFail = none,
        outputCloseTried := true,
        outputClosed := env.outputCloseFail = none,
        deregistered := true,
        logs := (match (procLoop env.cycles).2 with
                 | LoopExit.caught e => [loopErrLog e]
                 | _ => []) ++
                (match env.inputCloseFail with
                 | some _ => [LogMsg.inputCloseFailed]
                 | none => []) ++
                (match env.outputCloseFail with
                 | some _ => [LogMsg.outputCloseFailed]
                 | none => []),
        escaped := none } := by
  rcases closeCatchable_elim hic with hi | ⟨t1, hi⟩ <;>
  rcases closeCatchable_elim hoc with ho | ⟨t2, ho⟩ <;>
  rcases hex : (procLoop env.cycles).2 with _ | _ | e | _ <;>
  first
  | exact absurd hex hfuel
  | cases hhh : env.hasHandler <;>
      simp [runTask, hb, he, hi, ho, hex, hhh, closeStep]

/-- Claim C1 (refuting evaluation): at `demoEnvC1` — handler present, a
clean one-cycle connection, `clientEnd` raising a generic `TException` —
the unguarded `clientEnd` call (lines 75-77 sit outside every `try`
block) lets the exception escape `run()`: both channel closes and the
`tasks_.erase` block (lines 79-99) are skipped, so the task's registry
entry leaks, contrary to the claim that deregistration is performed
unconditionally as the final action. -/
theorem c1_deregistration_skipped_at_failing_input :
    (runTask demoEnvC1).deregistered = false ∧
    (runTask demoEnvC1).escaped = some ExcKind.tExc ∧
    (runTask demoEnvC1).inputCloseTried = false ∧
    (runTask demoEnvC1).outputCloseTried = false := by
  decide

/-- Claim C4: the processor is invoked an (i+2)-th time exactly when the
(i+1)-th cycle returned `continue` and the following `peek` reported
data (and the oracle trace extends that far); in particular a processor
reporting no further request on its first call is called exactly once,
after which (with clean cleanup) the task closes both channels and
deregisters. -/
theorem c4_reinvocation_iff (cs : List (ProcResult × PeekResult)) (i : Nat)
    (env : TaskEnv) :
    (i < (procLoop cs).1 →
      ((i + 1 < (procLoop cs).1) ↔
        (cs.get? i = some (ProcResult.ret true, PeekResult.ret true) ∧
         i + 1 < cs.length))) ∧
    (∀ k rest, env.cycles = (ProcResult.ret false, k) :: rest →
      env.hookBeginFail = none → env.hookEndFail = none →
      env.inputCloseFail = none → env.outputCloseFail = none →
      (runTask env).procCalls = 1 ∧ (runTask env).inputClosed = true ∧
      (runTask env).outputClosed = true ∧ (runTask env).deregistered = true ∧
      (runTask env).escaped = none) := by
  constructor
  · exact procLoop_reinvoke cs i
  · intro k rest hcyc hb he hic hoc
    have hfuel : (procLoop env.cycles).2 ≠ LoopExit.fuelOut := by
      rw [hcyc]
      simp [procLoop]
    rw [runTask_cleanup env hb he (by rw [hic]; rfl) (by rw [hoc]; rfl) hfuel]
    simp [hcyc, hic, hoc, procLoop]

theorem c4_reinvocation_iff_witness :
    (1 < (procLoop demoCyclesC4).1 ↔
      (demoCyclesC4.get? 0 = some (ProcResult.ret true, PeekResult.ret true) ∧
       1 < demoCyclesC4.length)) ∧
    ((runTask demoEnvC4).procCalls = 1 ∧ (runTask demoEnvC4).inputClosed = true ∧
     (runTask demoEnvC4).outputClosed = true ∧
     (runTask demoEnvC4).deregistered = true ∧
     (runTask demoEnvC4).escaped = none) :=
  ⟨(c4_reinvocation_iff demoCyclesC4 0 demoEnvC4).1 (by decide),
   (c4_reinvocation_iff demoCyclesC4 0 demoEnvC4).2 (PeekResult.ret true) []
     rfl rfl rfl rfl rfl⟩

/-- Claim C6: every error kind the processing loop can raise — transport
(`catch (TTransportException&)`, line 66), generic
(`catch (TException&)`, line 69), or unknown (`catch (...)`, line 72) —
is caught and logged with that arm's kind-specific message, and ends
only the loop: `clientEnd` still fires when a handler is set, and
(cleanup steps themselves succeeding or failing with the caught
transport kind) the run continues to deregistration with nothing
propagated past the task boundary. -/
theorem c6_loop_error_contained (env : TaskEnv) (e : ExcKind)
    (hb : env.hookBeginFail = none)
    (hl : (procLoop env.cycles).2 = LoopExit.caught e)
    (he : env.hookEndFail = none)
    (hic : closeCatchable env.inputCloseFail = true)
    (hoc : closeCatchable env.outputCloseFail = true) :
    loopErrLog e ∈ (runTask env).logs ∧
    (env.hasHandler = true → (runTask env).clientEndFired = true) ∧
    (runTask env).escaped = none ∧
    (runTask env).deregistered = true := by
  have hfuel : (procLoop env.cycles).2 ≠ LoopExit.fuelOut := by
    rw [hl]
    exact fun h => LoopExit.noConfusion h
  rw [runTask_cleanup env hb he hic hoc hfuel]
  simp [hl]

theorem c6_loop_error_contained_witness :
    LogMsg.taskTExc ∈ (runTask demoEnvC6).logs ∧
    (runTask demoEnvC6).clientEndFired = true ∧
    (runTask demoEnvC6).escaped = none ∧
    (runTask demoEnvC6).deregistered = true :=
  ⟨(c6_loop_error_contained demoEnvC6 ExcKind.tExc rfl (by decide) rfl
      (by decide) (by decide)).1,
   (c6_loop_error_contained demoEnvC6 ExcKind.tExc rfl (by decide) rfl
      (by decide) (by decide)).2.1 rfl,
   (c6_loop_error_contained demoEnvC6 ExcKind.tExc rfl (by decide) rfl
      (by decide) (by decide)).2.2.1,
   (c6_loop_error_contained demoEnvC6 ExcKind.tExc rfl (by decide) rfl
      (by decide) (by decide)).2.2.2⟩

/-- Claim C7 (counterexample): when the input-channel close raises a
generic `TException` — not the `TTransportException` the catch clause of
line 81 names — the exception escapes `run`: the output close is never
attempted and deregistration is skipped, refuting the unqualified claim
that each close failure is logged and never escalated and that the
output close is still attempted. -/
theorem c7_counterexample :
    (runTask demoEnvC7).outputCloseTried = false ∧
    (runTask demoEnvC7).escaped = some ExcKind.tExc ∧
    (runTask demoEnvC7).deregistered = false ∧
    LogMsg.inputCloseFailed ∉ (runTask demoEnvC7).logs := by
  decide

/-- Claim C7 (amended): during cleanup, when each close either succeeds
or fails with the transport kind its catch clause catches, the two close
steps are independent failure domains: both closes are attempted, each
transport-kind close failure is logged with its own message, nothing is
escalated, and the task still deregisters.  (A close failure of any
other kind escapes `run`, skipping the remaining steps — see the
counterexample.) -/
theorem c7_close_independence (env : TaskEnv)
    (hb : env.hookBeginFail = none)
    (hfuel : (procLoop env.cycles).2 ≠ LoopExit.fuelOut)
    (he : env.hookEndFail = none)
    (hic : closeCatchable env.inputCloseFail = true)
    (hoc : closeCatchable env.outputCloseFail = true) :
    (runTask env).inputCloseTried = true ∧
    (runTask env).outputCloseTried = true ∧
    (env.inputCloseFail ≠ none → LogMsg.inputCloseFailed ∈ (runTask env).logs) ∧
    (env.outputCloseFail ≠ none → LogMsg.outputCloseFailed ∈ (runTask env).logs) ∧
    (runTask env).escaped = none ∧
    (runTask env).deregistered = true := by
  rw [runTask_cleanup env hb he hic hoc hfuel]
  refine ⟨rfl, rfl, ?_, ?_, rfl, rfl⟩
  · intro hne
    rcases hv : env.inputCloseFail with _ | ek
    · exact absurd hv hne
    · simp [hv]
  · intro hne
    rcases hv : env.outputCloseFail with _ | ek
    · exact absurd hv hne
    · simp [hv]

theorem c7_close_independence_witness :
    (runTask demoEnvC7w).outputCloseTried = true ∧
    LogMsg.inputCloseFailed ∈ (runTask demoEnvC7w).logs ∧
    LogMsg.outputCloseFailed ∈ (runTask demoEnvC7w).logs ∧
    (runTask demoEnvC7w).escaped = none ∧
    (runTask demoEnvC7w).deregistered = true :=
  ⟨(c7_close_independence demoEnvC7w rfl (by decide) rfl (by decide)
      (by decide)).2.1,
   (c7_close_independence demoEnvC7w rfl (by decide) rfl (by decide)
      (by decide)).2.2.1 (by decide),
   (c7_close_independence demoEnvC7w rfl (by decide) rfl (by decide)
      (by decide)).2.2.2.1 (by decide),
   (c7_close_independence demoEnvC7w rfl (by decide) rfl (by decide)
      (by decide)).2.2.2.2.1,
   (c7_close_independence demoEnvC7w rfl (by decide) rfl (by decide)
      (by decide)).2.2.2.2.2⟩

/-- Claim C3 (counterexample): with the stop flag read true and the
accept call failing with a transport error of a type other than
INTERRUPTED (here END_OF_FILE), line 199's condition
`!stop_ || ttx.getType() != TTransportException::INTERRUPTED` still
holds, so the failure IS logged — refuting the claim that any accept
failure with the stop flag set continues silently. -/
theorem c3_counterexample :
    (acceptLoopCatch true ⟨true, true, true⟩
       (ExcKind.transportExc TType.endOfFile)).log = some LogMsg.acceptDied := by
  decide

/-- Claim C3 (amended): a transport failure of the accept step never
breaks the loop; it is silent exactly when the stop flag reads true AND
the error type is INTERRUPTED (the shutdown-triggered unblocking
signal); in particular with the stop flag unset it is always logged as
the hard accept-loop error. -/
theorem c3_accept_fail_logging (stopNow : Bool) (made : Resources) (t : TType) :
    (acceptLoopCatch stopNow made (ExcKind.transportExc t)).breaks = false ∧
    ((acceptLoopCatch stopNow made (ExcKind.transportExc t)).log = none ↔
      (stopNow = true ∧ t = TType.interrupted)) ∧
    (stopNow = false →
      (acceptLoopCatch stopNow made (ExcKind.transportExc t)).log =
        some LogMsg.acceptDied) := by
  cases stopNow <;> by_cases ht : t = TType.interrupted <;>
    simp [acceptLoopCatch, ht]

theorem c3_accept_fail_logging_witness :
    (acceptLoopCatch false ⟨true, true, true⟩
       (ExcKind.transportExc TType.unknownType)).log = some LogMsg.acceptDied ∧
    (acceptLoopCatch true ⟨true, true, true⟩
       (ExcKind.transportExc TType.interrupted)).log = none :=
  ⟨(c3_accept_fail_logging false ⟨true, true, true⟩ TType.unknownType).2.2 rfl,
   (c3_accept_fail_logging true ⟨true, true, true⟩ TType.interrupted).2.1.mpr
     ⟨rfl, rfl⟩⟩

lemma serveLoop_registry_mono (iters : List IterEnv) :
    ∀ s : LoopState, s.registry ⊆ (serveLoop s iters).1.registry := by
  induction iters with
  | nil =>
    intro s
    simp [serveLoop]
  | cons it rest ih =>
    intro s
    have hstep : ∀ s' : LoopState, s.registry ⊆ s'.registry →
        s.registry ⊆ (serveLoop s' rest).1.registry :=
      fun s' hsub => Finset.Subset.trans hsub (ih s')
    rw [serveLoop]
    by_cases hsc : it.stopAtCond
    · simp [hsc]
    · rcases hoc : it.outcome with id | ⟨made, e⟩ | ⟨id, e⟩
      · simp only [hsc, if_false, Bool.false_eq_true]
        exact hstep _ (Finset.subset_insert id s.registry)
      · cases e with
        | transportExc t =>
          simp only [hsc, if_false, Bool.false_eq_true, acceptLoopCatch]
          exact hstep _ (Finset.Subset.refl _)
        | tExc =>
          simp only [hsc, if_false, Bool.false_eq_true, acceptLoopCatch]
          exact hstep _ (Finset.Subset.refl _)
        | stringExc =>
          simp only [hsc, if_false, Bool.false_eq_true, acceptLoopCatch]
          exact Finset.Subset.refl _
      · cases e with
        | transportExc t =>
          simp only [hsc, if_false, Bool.false_eq_true, acceptLoopCatch]
          exact hstep _ (Finset.subset_insert id s.registry)
        | tExc =>
          simp only [hsc, if_false, Bool.false_eq_true, acceptLoopCatch]
          exact hstep _ (Finset.subset_insert id s.registry)
        | stringExc =>
          simp only [hsc, if_false, Bool.false_eq_true, acceptLoopCatch]
          exact Finset.subset_insert id s.registry

lemma serveLoop_broke_logs (iters : List IterEnv) :
    ∀ (s : LoopState) (b : Bool),
      (serveLoop s iters).2 = LoopEnd.broke b →
      LogMsg.unknownExc ∈ (serveLoop s iters).1.logs := by
  induction iters with
  | nil =>
    intro s b h
    simp [serveLoop] at h
  | cons it rest ih =>
    intro s b h
    rw [serveLoop] at h ⊢
    by_cases hsc : it.stopAtCond
    · simp [hsc] at h
    · rcases hoc : it.outcome with id | ⟨made, e⟩ | ⟨id, e⟩
      · simp only [hoc, hsc, if_false, Bool.false_eq_true] at h ⊢
        exact ih _ b h
      · cases e with
        | transportExc t =>
          simp only [hoc, hsc, if_false, Bool.false_eq_true, acceptLoopCatch] at h ⊢
          exact ih _ b h
        | tExc =>
          simp only [hoc, hsc, if_false, Bool.false_eq_true, acceptLoopCatch] at h ⊢
          exact ih _ b h
        | stringExc =>
          simp only [hoc, hsc, if_false, Bool.false_eq_true, acceptLoopCatch] at h ⊢
          simp
      · cases e with
        | transportExc t =>
          simp only [hoc, hsc, if_false, Bool.false_eq_true, acceptLoopCatch] at h ⊢
          exact ih _ b h
        | tExc =>
          simp only [hoc, hsc, if_false, Bool.false_eq_true, acceptLoopCatch] at h ⊢
          exact ih _ b h
        | stringExc =>
          simp only [hoc, hsc, if_false, Bool.false_eq_true, acceptLoopCatch] at h ⊢
          simp

lemma shutdownBlock_normal (env : ServeEnv) (s : LoopState) (le : LoopEnd)
    (hcl : env.closeListenerFail ≠ some ExcKind.stringExc)
    (hwf : env.waitFail ≠ some ExcKind.stringExc) :
    shutdownBlock env s le =
      { preServeFired := env.hasHandler,
        registry := if env.waitFail = none then ∅ else s.registry,
        logs := (s.logs ++
                  (if env.closeListenerFail = none then []
                   else [LogMsg.shutdownExc])) ++
                (if env.waitFail = none then [] else [LogMsg.joinExc]),
        loopEnd := some le, shutdownRan := true, closeListenerTried := true,
        drainTried := true, drainCompleted := env.waitFail.isNone,
        didResetStop := true, escaped := none } := by
  rcases hclv : env.closeListenerFail with _ | ecl
  · rcases hwfv : env.waitFail with _ | ewf
    · simp [shutdownBlock, hclv, hwfv]
    · cases ewf with
      | transportExc t => simp [shutdownBlock, hclv, hwfv]
      | tExc => simp [shutdownBlock, hclv, hwfv]
      | stringExc => exact absurd hwfv hwf
  · cases ecl with
    | stringExc => exact absurd hclv hcl
    | transportExc t =>
      rcases hwfv : env.waitFail with _ | ewf
      · simp [shutdownBlock, hclv, hwfv]
      · cases ewf with
        | transportExc t2 => simp [shutdownBlock, hclv, hwfv]
        | tExc => simp [shutdownBlock, hclv, hwfv]
        | stringExc => exact absurd hwfv hwf
    | tExc =>
      rcases hwfv : env.waitFail with _ | ewf
      · simp [shutdownBlock, hclv, hwfv]
      · cases ewf with
        | transportExc t2 => simp [shutdownBlock, hclv, hwfv]
        | tExc => simp [shutdownBlock, hclv, hwfv]
        | stringExc => exact absurd hwfv hwf

lemma shutdownBlock_fields (env : ServeEnv) (s : LoopState) (le : LoopEnd) :
    (shutdownBlock env s le).shutdownRan = true ∧
    (shutdownBlock env s le).loopEnd = some le := by
  rcases hclv : env.closeListenerFail with _ | ecl
  · rcases hwfv : env.waitFail with _ | ewf
    · simp [shutdownBlock, hclv, hwfv]
    · cases ewf <;> simp [shutdownBlock, hclv, hwfv]
  · cases ecl with
    | stringExc => simp [shutdownBlock, hclv]
    | transportExc t =>
      rcases hwfv : env.waitFail with _ | ewf
      · simp [shutdownBlock, hclv, hwfv]
      · cases ewf <;> simp [shutdownBlock, hclv, hwfv]
    | tExc =>
      rcases hwfv : env.waitFail with _ | ewf
      · simp [shutdownBlock, hclv, hwfv]
      · cases ewf <;> simp [shutdownBlock, hclv, hwfv]

lemma shutdownBlock_logs_le (env : ServeEnv) (s : LoopState) (le : LoopEnd)
    (x : LogMsg) (hx : x ∈ s.logs) : x ∈ (shutdownBlock env s le).logs := by
  rcases hclv : env.closeListenerFail with _ | ecl
  · rcases hwfv : env.waitFail with _ | ewf
    · simpa [shutdownBlock, hclv, hwfv] using hx
    · cases ewf <;> simp [shutdownBlock, hclv, hwfv, hx]
  · cases ecl with
    | stringExc => simpa [shutdownBlock, hclv] using hx
    | transportExc t =>
      rcases hwfv : env.waitFail with _ | ewf
      · simp [shutdownBlock, hclv, hwfv, hx]
      · cases ewf <;> simp [shutdownBlock, hclv, hwfv, hx]
    | tExc =>
      rcases hwfv : env.waitFail with _ | ewf
      · simp [shutdownBlock, hclv, hwfv, hx]
      · cases ewf <;> simp [shutdownBlock, hclv, hwfv, hx]

/-- Claim C5 (counterexample): an opaque (string) failure of an accept
iteration does break the loop, but if a concurrent `stop()` has set the
flag by the time line 222 reads it, the `if (stop_)` shutdown block DOES
run: the listening transport is closed, the drain is performed and the
stop flag is reset — refuting the claim that after an opaque error serve
never goes through the stop-flag shutdown path. -/
theorem c5_counterexample :
    (serve demoServeC5).shutdownRan = true ∧
    (serve demoServeC5).closeListenerTried = true ∧
    (serve demoServeC5).drainTried = true ∧
    (serve demoServeC5).didResetStop = true ∧
    (serve demoServeC5).loopEnd = some (LoopEnd.broke true) := by
  decide

/-- Claim C5 (amended): an unrecognized/opaque (string) error in an
accept iteration is logged (`Unknown exception`) and breaks the Serving
loop; the stop-flag shutdown path (listener close, drain, flag reset) is
then skipped exactly when the stop flag is still false at the exit check
of line 222 — which is the case unless a concurrent `stop()` set it
during that final iteration. -/
theorem c5_opaque_error_breaks (env : ServeEnv) (b : Bool)
    (hlisten : env.listenFail = none)
    (hend : (serveLoop ⟨∅, []⟩ env.iters).2 = LoopEnd.broke b) :
    LogMsg.unknownExc ∈ (serve env).logs ∧
    (serve env).loopEnd = some (LoopEnd.broke b) ∧
    (b = false →
      (serve env).shutdownRan = false ∧ (serve env).closeListenerTried = false ∧
      (serve env).drainTried = false ∧ (serve env).didResetStop = false) ∧
    (b = true → (serve env).shutdownRan = true) := by
  rcases hsl : serveLoop ⟨∅, []⟩ env.iters with ⟨s, le⟩
  rw [hsl] at hend
  dsimp only at hend
  subst hend
  have hmem : LogMsg.unknownExc ∈ s.logs := by
    have h := serveLoop_broke_logs env.iters ⟨∅, []⟩ b (by rw [hsl])
    rwa [hsl] at h
  have hserve : serve env =
      if b then shutdownBlock env s (LoopEnd.broke b)
      else skipShutdown env s (LoopEnd.broke b) := by
    simp [serve, hlisten, hsl]
  cases b with
  | false =>
    rw [hserve]
    simp [skipShutdown, hmem]
  | true =>
    rw [hserve]
    simp only [if_true]
    exact ⟨shutdownBlock_logs_le env s _ _ hmem,
           (shutdownBlock_fields env s _).2,
           by simp,
           fun _ => (shutdownBlock_fields env s _).1⟩

theorem c5_opaque_error_breaks_witness :
    LogMsg.unknownExc ∈ (serve demoServeC5b).logs ∧
    (serve demoServeC5b).shutdownRan = false ∧
    (serve demoServeC5b).closeListenerTried = false ∧
    (serve demoServeC5b).drainTried = false ∧
    (serve demoServeC5b).didResetStop = false := by
  have h := c5_opaque_error_breaks demoServeC5b false rfl (by decide)
  exact ⟨h.1, (h.2.2.1 rfl).1, (h.2.2.1 rfl).2.1, (h.2.2.1 rfl).2.2.1,
         (h.2.2.1 rfl).2.2.2⟩

/-- Claim C8 (counterexample): with the loop exiting on the stop flag
and `serverTransport_->close()` throwing a string — which the
`catch (TException&)` of line 225 does not catch — the exception escapes
`serve`: the drain never runs and the stop flag is NOT reset, refuting
the claim that any failure of the shutdown steps is logged and never
escalated and that the flag is always reset before returning. -/
theorem c8_counterexample :
    (serve demoServeC8).didResetStop = false ∧
    (serve demoServeC8).drainTried = false ∧
    (serve demoServeC8).escaped = some ExcKind.stringExc := by
  decide

/-- Claim C8 (amended): when the Serving loop exits because the stop
flag was read true, serve closes the listening transport, logging
(never escalating) any failure of a `TException` kind — transport or
generic — then drains the registry (a completed drain observes the set
empty; a `TException`-kind failure of the wait is logged, never
escalated), and resets the stop flag before returning; a failure of
unknown kind (a thrown string) in either guarded step instead escapes
`serve`, skipping the remaining steps including the flag reset. -/
theorem c8_stop_shutdown_sequence (env : ServeEnv)
    (hlisten : env.listenFail = none)
    (hend : (serveLoop ⟨∅, []⟩ env.iters).2 = LoopEnd.sawStop)
    (hcl : env.closeListenerFail ≠ some ExcKind.stringExc)
    (hwf : env.waitFail ≠ some ExcKind.stringExc) :
    (serve env).shutdownRan = true ∧
    (serve env).closeListenerTried = true ∧
    (env.closeListenerFail ≠ none → LogMsg.shutdownExc ∈ (serve env).logs) ∧
    (serve env).drainTried = true ∧
    (env.waitFail = none →
      (serve env).drainCompleted = true ∧ (serve env).registry = ∅) ∧
    (env.waitFail ≠ none → LogMsg.joinExc ∈ (serve env).logs) ∧
    (serve env).didResetStop = true ∧
    (serve env).escaped = none := by
  rcases hsl : serveLoop ⟨∅, []⟩ env.iters with ⟨s, le⟩
  rw [hsl] at hend
  dsimp only at hend
  subst hend
  have hserve : serve env = shutdownBlock env s LoopEnd.sawStop := by
    simp [serve, hlisten, hsl]
  rw [hserve, shutdownBlock_normal env s LoopEnd.sawStop hcl hwf]
  refine ⟨rfl, rfl, ?_, rfl, ?_, ?_, rfl, rfl⟩
  · intro h
    simp [h]
  · intro h
    simp [h]
  · intro h
    simp [h]

theorem c8_stop_shutdown_sequence_witness :
    (serve demoServeC8w).shutdownRan = true ∧
    (serve demoServeC8w).closeListenerTried = true ∧
    LogMsg.shutdownExc ∈ (serve demoServeC8w).logs ∧
    (serve demoServeC8w).drainTried = true ∧
    (serve demoServeC8w).drainCompleted = true ∧
    (serve demoServeC8w).registry = ∅ ∧
    (serve demoServeC8w).didResetStop = true ∧
    (serve demoServeC8w).escaped = none := by
  have h := c8_stop_shutdown_sequence demoServeC8w rfl (by decide) (by decide)
    (by decide)
  exact ⟨h.1, h.2.1, h.2.2.1 (by decide), h.2.2.2.1, (h.2.2.2.2.1 rfl).1,
         (h.2.2.2.2.1 rfl).2, h.2.2.2.2.2.2.1, h.2.2.2.2.2.2.2⟩

/-- Claim C10 (counterexample): when `thread->start()` throws a
transport INTERRUPTED exception after the insert and the stop flag reads
true inside the catch, line 199's condition is false: NOTHING is logged
(while the entry is indeed retained) — refuting the claim that the
failure handler always logs. -/
theorem c10_counterexample :
    (acceptLoopCatch demoIterC10.stopAtCatch ⟨true, true, true⟩
       (ExcKind.transportExc TType.interrupted)).log = none ∧
    7 ∈ (serveLoop ⟨∅, []⟩ [demoIterC10]).1.registry ∧
    (serveLoop ⟨∅, []⟩ [demoIterC10]).1.logs = [] := by
  decide

/-- Claim C10 (amended): when `thread->start()` (line 193) throws one of
the recognized kinds after `tasks_.insert(task)` (line 189), the catch
handler closes the two wrapped transports and the raw connection, logs
the failure — except in the single silent case of a transport
INTERRUPTED error with the stop flag read true — and proceeds
(continuing or breaking); no catch arm touches `tasks_`, so the task's
entry is still in the registry when the loop ends, and the registry only
ever grows while the loop runs. -/
theorem c10_launch_failure_entry_retained (it : IterEnv) (rest : List IterEnv)
    (s : LoopState) (id : Nat) (e : ExcKind)
    (hsc : it.stopAtCond = false)
    (hoc : it.outcome = IterOutcome.failAfter id e) :
    (acceptLoopCatch it.stopAtCatch ⟨true, true, true⟩ e).closedClient = true ∧
    (acceptLoopCatch it.stopAtCatch ⟨true, true, true⟩ e).closedIn = true ∧
    (acceptLoopCatch it.stopAtCatch ⟨true, true, true⟩ e).closedOut = true ∧
    ((acceptLoopCatch it.stopAtCatch ⟨true, true, true⟩ e).log = none ↔
      (it.stopAtCatch = true ∧ e = ExcKind.transportExc TType.interrupted)) ∧
    id ∈ (serveLoop s (it :: rest)).1.registry ∧
    (∀ x ∈ s.registry, x ∈ (serveLoop s (it :: rest)).1.registry) := by
  refine ⟨rfl, rfl, rfl, ?_, ?_, ?_⟩
  · cases e with
    | transportExc t =>
      cases hst : it.stopAtCatch <;> by_cases ht : t = TType.interrupted <;>
        simp [acceptLoopCatch, ht, hst]
    | tExc => simp [acceptLoopCatch]
    | stringExc => simp [acceptLoopCatch]
  · rw [serveLoop]
    simp only [hsc, hoc, if_false, Bool.false_eq_true]
    cases e with
    | transportExc t =>
      simp only [acceptLoopCatch]
      exact serveLoop_registry_mono rest _ (Finset.mem_insert_self id s.registry)
    | tExc =>
      simp only [acceptLoopCatch]
      exact serveLoop_registry_mono rest _ (Finset.mem_insert_self id s.registry)
    | stringExc =>
      simp only [acceptLoopCatch]
      exact Finset.mem_insert_self id s.registry
  · intro x hx
    rw [serveLoop]
    simp only [hsc, hoc, if_false, Bool.false_eq_true]
    cases e with
    | transportExc t =>
      simp only [acceptLoopCatch]
      exact serveLoop_registry_mono rest _ (Finset.mem_insert_of_mem hx)
    | tExc =>
      simp only [acceptLoopCatch]
      exact serveLoop_registry_mono rest _ (Finset.mem_insert_of_mem hx)
    | stringExc =>
      simp only [acceptLoopCatch]
      exact Finset.mem_insert_of_mem hx

theorem c10_launch_failure_entry_retained_witness :
    (acceptLoopCatch demoIterC10w.stopAtCatch ⟨true, true, true⟩
       ExcKind.tExc).closedClient = true ∧
    7 ∈ (serveLoop ⟨∅, []⟩ [demoIterC10w]).1.registry :=
  ⟨(c10_launch_failure_entry_retained demoIterC10w [] ⟨∅, []⟩ 7 ExcKind.tExc
      rfl rfl).1,
   (c10_launch_failure_entry_retained demoIterC10w [] ⟨∅, []⟩ 7 ExcKind.tExc
      rfl rfl).2.2.2.2.1⟩

end TThreadedServer
